import Mathlib

/-!
Verification development for the `invoice_send_aws` monthly-billing pipeline
(`send_qbo_invoices/shared/task_minutes_to_clickup_and_qbo.py`).

The pipeline's computational core is shallow-embedded below:
  * a calendar model (`DateTime`, `daysInMonth`, month/day/second arithmetic)
    mirroring Python `datetime` + `dateutil.relativedelta` as used by the code;
  * the billing-period resolver (`BillingPeriodConfig` properties);
  * runtime rounding and run filtering (`get_assistant_runs`, `get_unattended_runs`);
  * the per-client totals and the report pivot (`process_all_clients`,
    `build_runtime_report`);
  * the contract resolver (`send_data_to_clickup` field extraction);
  * invoice generation (`generate_invoice`);
  * the batch orchestrator loop (`process_all_clients`).
External I/O (HTTP fetches, DynamoDB scan, SharePoint, QuickBooks calls) is
abstracted into the input lists / abstract step functions; everything the code
computes from those inputs is embedded faithfully.
-/

/-- Timezone-naive model of Python `datetime` values (all `started_at` values in
the pipeline are UTC; only the field values matter for the embedded logic). -/
structure DateTime where
  year : ℕ
  month : ℕ
  day : ℕ
  hour : ℕ
  minute : ℕ
  second : ℕ
deriving DecidableEq, Repr

/-- Gregorian leap-year rule (Python `calendar.isleap`). -/
def isLeap (y : ℕ) : Bool :=
  (y % 4 == 0 && y % 100 != 0) || y % 400 == 0

/-- Days in a calendar month, as Python `calendar.monthrange` /
`datetime` day validation uses. -/
def daysInMonth (y m : ℕ) : ℕ :=
  if m = 2 then (if isLeap y then 29 else 28)
  else if m = 4 ∨ m = 6 ∨ m = 9 ∨ m = 11 then 30
  else 31

/-- `d + relativedelta(months=1)`: advance one month, clamping the day to the
length of the target month (dateutil semantics). -/
def addOneMonth (d : DateTime) : DateTime :=
  let y := if d.month = 12 then d.year + 1 else d.year
  let m := if d.month = 12 then 1 else d.month + 1
  { d with year := y, month := m, day := min d.day (daysInMonth y m) }

/-- `d - relativedelta(months=1)`: go back one month, clamping the day. -/
def subOneMonth (d : DateTime) : DateTime :=
  let y := if d.month = 1 then d.year - 1 else d.year
  let m := if d.month = 1 then 12 else d.month - 1
  { d with year := y, month := m, day := min d.day (daysInMonth y m) }

/-- `d - relativedelta(days=1)` / `d - timedelta(days=1)`. -/
def subOneDay (d : DateTime) : DateTime :=
  if 2 ≤ d.day then { d with day := d.day - 1 }
  else
    let y := if d.month = 1 then d.year - 1 else d.year
    let m := if d.month = 1 then 12 else d.month - 1
    { d with year := y, month := m, day := daysInMonth y m }

/-- `.replace(hour=23, minute=59, second=59)` as used by the billing-period
properties. -/
def setEndOfDay (d : DateTime) : DateTime :=
  { d with hour := 23, minute := 59, second := 59 }

/-- Advance a datetime by one second, rolling over through minute, hour, day,
month and year boundaries.  Used to state `priorEnd = currentStart - 1 second`. -/
def addOneSecond (d : DateTime) : DateTime :=
  if d.second < 59 then { d with second := d.second + 1 }
  else if d.minute < 59 then { d with minute := d.minute + 1, second := 0 }
  else if d.hour < 23 then { d with hour := d.hour + 1, minute := 0, second := 0 }
  else if d.day < daysInMonth d.year d.month then
    { d with day := d.day + 1, hour := 0, minute := 0, second := 0 }
  else if d.month < 12 then
    { d with month := d.month + 1, day := 1, hour := 0, minute := 0, second := 0 }
  else
    { year := d.year + 1, month := 1, day := 1, hour := 0, minute := 0, second := 0 }

/-- Linearisation of a datetime into a single natural number.  For valid dates
(month ≤ 12, day ≤ 31, hour ≤ 23, minute, second ≤ 59) it is strictly monotone
in chronological order, so it models pandas/`datetime` comparison. -/
def DateTime.key (d : DateTime) : ℕ :=
  ((((d.year * 13 + d.month) * 32 + d.day) * 24 + d.hour) * 60 + d.minute) * 60 + d.second

/-- Chronological `≤` on datetimes (pandas timestamp comparison). -/
def DateTime.le (a b : DateTime) : Prop := a.key ≤ b.key

/-- Chronological `<` on datetimes. -/
def DateTime.lt (a b : DateTime) : Prop := a.key < b.key

instance (a b : DateTime) : Decidable (DateTime.le a b) := Nat.decLe a.key b.key

instance (a b : DateTime) : Decidable (DateTime.lt a b) := Nat.decLt a.key b.key

/-- First day of a calendar month at midnight: the shape of every billing
reference date (`get_billing_reference_date` defaults to
`datetime(now.year, now.month, 1)`). -/
def firstOfMonth (y m : ℕ) : DateTime := ⟨y, m, 1, 0, 0, 0⟩

/-- `BillingPeriodConfig.current_period_start`: the reference date itself. -/
def currentPeriodStart (ref : DateTime) : DateTime := ref

/-- `BillingPeriodConfig.current_period_end`:
`(reference_date + relativedelta(months=1, days=-1)).replace(hour=23, minute=59, second=59)`. -/
def currentPeriodEnd (ref : DateTime) : DateTime :=
  setEndOfDay (subOneDay (addOneMonth ref))

/-- `BillingPeriodConfig.prior_period_start`: `reference_date - relativedelta(months=1)`. -/
def priorPeriodStart (ref : DateTime) : DateTime := subOneMonth ref

/-- `BillingPeriodConfig.prior_period_end`:
`(reference_date - relativedelta(days=1)).replace(hour=23, minute=59, second=59)`. -/
def priorPeriodEnd (ref : DateTime) : DateTime :=
  setEndOfDay (subOneDay ref)

/-- `BillingPeriodConfig.sharepoint_file_date`: `prior_period_start.strftime("%Y-%-m")`,
i.e. the year and the month with no zero padding, dash separated. -/
def sharepointFileDate (ref : DateTime) : String :=
  toString (priorPeriodStart ref).year ++ "-" ++ toString (priorPeriodStart ref).month

/-- `math.ceil(x / 60)` on a whole number of seconds: round up to the nearest
whole minute (`round_up_to_minute` in `get_assistant_runs`, and the per-step
rounding in `get_unattended_runs`). -/
def roundUpToMinute (x : ℕ) : ℕ := (x + 59) / 60

/-- One raw assistant run: `{assistant: {id, name}, started_at, duration}`. -/
structure AssistantRun where
  processName : String
  started_at : DateTime
  duration : ℕ
deriving DecidableEq, Repr

/-- One raw unattended process run together with the durations of its step runs
(`duration` may be JSON null, modelled as `none`); the step list abstracts the
paginated `step-runs` fetch. -/
structure UnattendedRun where
  processName : String
  started_at : DateTime
  steps : List (Option ℕ)
deriving DecidableEq, Repr

/-- Runtime of one unattended process run: the source loops over its steps,
adding `math.ceil(step.duration / 60)` for every step whose duration is not
null. -/
def unattendedRunRuntime (steps : List (Option ℕ)) : ℕ :=
  steps.foldl
    (fun acc s => match s with
      | some d => roundUpToMinute d + acc
      | none => acc) 0

/-- Window filter of `get_assistant_runs`: keep rows with
`first_day_of_prior_month <= started_at <= last_day_of_prior_month`
(both bounds inclusive). -/
def filterAssistantRuns (firstDay lastDay : DateTime) (runs : List AssistantRun) :
    List AssistantRun :=
  runs.filter (fun r =>
    decide (DateTime.le firstDay r.started_at) && decide (DateTime.le r.started_at lastDay))

/-- Window filter of `get_unattended_runs`: keep rows with
`prior_period_start <= started_at <= current_period_end` (both inclusive),
where both bounds come from the module-level `BILLING_CONFIG`. -/
def filterUnattendedRuns (ref : DateTime) (runs : List UnattendedRun) :
    List UnattendedRun :=
  runs.filter (fun r =>
    decide (DateTime.le (priorPeriodStart ref) r.started_at) &&
      decide (DateTime.le r.started_at (currentPeriodEnd ref)))

/-- `total_runtime_prior_month_assistant`: the sum of the rounded-up minutes of
the window-filtered assistant runs. -/
def totalAssistantMinutes (firstDay lastDay : DateTime) (runs : List AssistantRun) : ℕ :=
  ((filterAssistantRuns firstDay lastDay runs).map (fun r => roundUpToMinute r.duration)).sum

/-- One row of the pre-aggregated SharePoint CSV snapshot
(`get_unattended_data_from_spreadsheet`). -/
structure SpreadsheetRow where
  organizationId : String
  organizationName : String
  processName : String
  minutes : ℕ
deriving DecidableEq, Repr

/-- `total_runtime_prior_month_unattended`: filter the snapshot rows to the
client's organization id and sum `Process total run minutes used`. -/
def spreadsheetUnattendedTotal (rows : List SpreadsheetRow) (orgId : String) : ℕ :=
  ((rows.filter (fun r => r.organizationId == orgId)).map (fun r => r.minutes)).sum

/-- `total_runtime_prior_month` as computed by `process_all_clients` (line 155):
the assistant total plus the spreadsheet-derived unattended total.  The
step-run-derived unattended runtimes and the report pivot play no part in it. -/
def totalRuntimePriorMonth (ref : DateTime) (assistantRuns : List AssistantRun)
    (sheetRows : List SpreadsheetRow) (orgId : String) : ℕ :=
  totalAssistantMinutes (priorPeriodStart ref) (priorPeriodEnd ref) assistantRuns +
    spreadsheetUnattendedTotal sheetRows orgId

/-- One row of the merged report dataframe in `build_runtime_report`
(columns `Process`, `Date`, `Runtime`). -/
structure RunRow where
  process : String
  date : DateTime
  runtime : ℕ
deriving DecidableEq, Repr

/-- The merged report rows: the window-filtered assistant runs (runtime =
rounded-up duration) concatenated with the window-filtered unattended runs
(runtime = summed rounded-up step durations). -/
def reportRows (ref : DateTime) (assistantRuns : List AssistantRun)
    (unattendedRuns : List UnattendedRun) : List RunRow :=
  ((filterAssistantRuns (priorPeriodStart ref) (priorPeriodEnd ref) assistantRuns).map
    (fun r => ⟨r.processName, r.started_at, roundUpToMinute r.duration⟩)) ++
  ((filterUnattendedRuns ref unattendedRuns).map
    (fun r => ⟨r.processName, r.started_at, unattendedRunRuntime r.steps⟩))

/-- Linearised calendar month of a date, monotone in chronological order; the
pivot's `Month` column (`to_period("M")`, rendered zero padded `YYYY-MM`) sorts
its columns in exactly this order. -/
def monthIndex (d : DateTime) : ℕ := d.year * 12 + d.month

/-- Index of the rightmost (latest) month column of the pivot table. -/
def rightmostMonth (rows : List RunRow) : ℕ :=
  (rows.map (fun r => monthIndex r.date)).foldl max 0

/-- `total_prior_month` in `build_runtime_report`: the pivot groups the rows by
`(Process, Month)` and sums `Runtime`, appends a Total row holding column-wise
sums, and reads the Total row in the rightmost month column.  The Total cell of
a month column equals the sum of the runtimes of all rows falling in that
month, which is how it is embedded here. -/
def pivotRightmostTotal (rows : List RunRow) : ℕ :=
  ((rows.filter (fun r => monthIndex r.date == rightmostMonth rows)).map
    (fun r => r.runtime)).sum

/-- Raw value of a ClickUp custom field: either a JSON string or a number. -/
inductive FieldValue where
  | str (s : String)
  | int (n : ℤ)
deriving DecidableEq, Repr

/-- One ClickUp custom field of an organization task.  `value = none` models a
missing `value` key (so `custom_field.get("value", default)` yields the
default); `typeConfigOptions` is the option-name list of `type_config.options`
for select fields, `none` when `type_config` is missing. -/
structure CustomField where
  name : String
  value : Option FieldValue
  typeConfigOptions : Option (List String)
deriving DecidableEq, Repr

/-- One ClickUp organization task as consumed by `send_data_to_clickup`. -/
structure OrgTask where
  id : String
  name : String
  customFields : List CustomField
deriving DecidableEq, Repr

/-- Numeric value of a digit list (most significant first). -/
def digitsVal (cs : List Char) : ℕ :=
  cs.foldl (fun a c => a * 10 + (c.toNat - 48)) 0

/-- Parse a non-empty all-digit character list. -/
def parseNatDigits (cs : List Char) : Option ℕ :=
  if cs ≠ [] ∧ cs.all Char.isDigit then some (digitsVal cs) else none

/-- Python `int(s)` on a string: an optional sign followed by digits, anything
else raises `ValueError` (modelled as `none`). -/
def pyIntOfString (s : String) : Option ℤ :=
  match s.toList with
  | '-' :: rest => (parseNatDigits rest).map (fun n => -(n : ℤ))
  | cs => (parseNatDigits cs).map (fun n => (n : ℤ))

/-- Decimal part of Python `float(s)` parsing: digits with an optional single
decimal point, at least one digit present. -/
def parseUnsignedFloat (cs : List Char) : Option ℚ :=
  let ip := cs.takeWhile (fun c => c != '.')
  let rest := cs.dropWhile (fun c => c != '.')
  match rest with
  | [] => (parseNatDigits ip).map (fun n => (n : ℚ))
  | _ :: fp =>
    if (ip ≠ [] ∨ fp ≠ []) ∧ ip.all Char.isDigit ∧ fp.all Char.isDigit then
      some ((digitsVal ip : ℚ) + (digitsVal fp : ℚ) / ((10 : ℚ) ^ fp.length))
    else none

/-- Python `float(s)` on a string, `none` on `ValueError`. -/
def pyFloatOfString (s : String) : Option ℚ :=
  match s.toList with
  | '-' :: rest => (parseUnsignedFloat rest).map (fun q => -q)
  | cs => parseUnsignedFloat cs

/-- Python `int(x)` applied to a raw field value: numbers pass through, strings
must parse, otherwise a `ValueError` is raised. -/
def pyInt : FieldValue → Except String ℤ
  | .int n => .ok n
  | .str s =>
    match pyIntOfString s with
    | some n => .ok n
    | none => .error "ValueError: invalid literal for int"

/-- Python `float(x)` applied to a raw field value. -/
def pyFloat : FieldValue → Except String ℚ
  | .int n => .ok ((n : ℚ))
  | .str s =>
    match pyFloatOfString s with
    | some q => .ok q
    | none => .error "ValueError: could not convert string to float"

/-- Resolution of a select/dropdown field
(`custom_field.get("type_config", "").get("options", [])[index].get("name", "")`):
a missing `type_config` raises `AttributeError` (a string has no `.get`), a
missing value makes the index the empty string which raises `TypeError`, and an
integer index out of range raises `IndexError` (negative indices count from the
end, as in Python). -/
def resolveSelect (f : CustomField) : Except String String :=
  match f.typeConfigOptions with
  | none => .error "AttributeError: str object has no attribute get"
  | some opts =>
    match f.value.getD (.str "") with
    | .str _ => .error "TypeError: list indices must be integers"
    | .int i =>
      let j : ℤ := if i < 0 then (opts.length : ℤ) + i else i
      if h : 0 ≤ j ∧ j.toNat < opts.length then .ok (opts.get ⟨j.toNat, h.2⟩)
      else .error "IndexError: list index out of range"

/-- The contract attributes extracted by `send_data_to_clickup`. -/
structure ContractInfo where
  organizationTaskId : Option String
  monthlyRate : ℤ
  includedMinutes : ℤ
  consumptionRate : ℚ
  dayToBill : ℤ
  serviceType : Option String
  clientType : Option String
  billingCC : Option String
deriving DecidableEq, Repr

/-- Initial values of the resolver's locals: `monthly_rate = 0`,
`included_minutes = 0`, `consumption_rate = 0.50`, `day_to_bill = 0`,
`service_type = client_type = billing_cc = None`. -/
def defaultContract : ContractInfo :=
  ⟨none, 0, 0, 1 / 2, 0, none, none, none⟩

/-- Raw field value rendered as text (the `Billing CC` value is stored as is). -/
def fieldValueText : FieldValue → String
  | .str s => s
  | .int n => toString n

/-- One iteration of the `match custom_field["name"]` dispatch in
`send_data_to_clickup`, updating the contract locals; numeric fields go through
`int(...)` / `float(...)` with `custom_field.get("value", 0)`, so a missing
value key yields the integer 0 while an unparseable present value raises. -/
def applyField (c : ContractInfo) (f : CustomField) : Except String ContractInfo :=
  if f.name = "Robocorp Prior Month" then .ok c
  else if f.name = "Robocorp Lifetime" then
    (pyInt (f.value.getD (.int 0))).map (fun _ => c)
  else if f.name = "Rate" then
    (pyInt (f.value.getD (.int 0))).map (fun n => { c with monthlyRate := n })
  else if f.name = "Included Consumption" then
    (pyInt (f.value.getD (.int 0))).map (fun n => { c with includedMinutes := n })
  else if f.name = "Consumption Rate" then
    (pyFloat (f.value.getD (.int 0))).map (fun q => { c with consumptionRate := q })
  else if f.name = "Day to Bill" then
    (pyInt (f.value.getD (.int 0))).map (fun n => { c with dayToBill := n })
  else if f.name = "Service Type" then
    (resolveSelect f).map (fun s => { c with serviceType := some s })
  else if f.name = "Type" then
    (resolveSelect f).map (fun s => { c with clientType := some s })
  else if f.name = "Billing CC" then
    .ok { c with billingCC := some (fieldValueText (f.value.getD (.str ""))) }
  else .ok c

/-- The organization lookup: the first task having a custom field named
`Account #` whose value equals the client number. -/
def findOrganization (tasks : List OrgTask) (clientNumber : String) : Option OrgTask :=
  tasks.find? (fun t =>
    t.customFields.any (fun f =>
      f.name == "Account #" && f.value == some (FieldValue.str clientNumber)))

/-- The contract-resolution core of `send_data_to_clickup`: when no
organization task matches, the locals keep their initial values and the
function returns them; when one matches, every custom field of that task is
dispatched through `applyField`, where a parse failure raises (there is no
try/except around any of it). -/
def resolveContract (tasks : List OrgTask) (clientNumber : String) :
    Except String ContractInfo :=
  match findOrganization tasks clientNumber with
  | none => .ok defaultContract
  | some org =>
    org.customFields.foldlM applyField
      { defaultContract with organizationTaskId := some org.id }

/-- One QuickBooks invoice line (`SalesItemLineDetail`). -/
structure SalesLineItem where
  detailType : String
  amount : ℚ
  description : String
  itemRefValue : String
  itemRefName : String
  unitPrice : Option ℚ
  qty : Option ℤ
deriving DecidableEq, Repr

/-- `overage_minutes` in `generate_invoice`: `total - included` when the total
exceeds the included minutes, otherwise 0. -/
def overageMinutes (totalRuntimePrior included : ℤ) : ℤ :=
  if included < totalRuntimePrior then totalRuntimePrior - included else 0

/-- The invoice line list of `generate_invoice`: always the base
Managed Automation Services line (item id 11, amount = monthly rate), plus,
exactly when `overage_minutes > 0`, the Runtime Overage line (item id
1010000001, `Amount = overage_minutes * consumption_rate`,
`UnitPrice = consumption_rate`, `Qty = overage_minutes`). -/
def invoiceLineItems (monthlyRate : ℚ) (includedMinutes : ℤ) (consumptionRate : ℚ)
    (totalRuntimePrior : ℤ) (description overageDescription : String) :
    List SalesLineItem :=
  let base : SalesLineItem :=
    ⟨"SalesItemLineDetail", monthlyRate, description, "11",
      "Managed Automation Services", none, none⟩
  let om := overageMinutes totalRuntimePrior includedMinutes
  if 0 < om then
    [base,
      ⟨"SalesItemLineDetail", (om : ℚ) * consumptionRate, overageDescription,
        "1010000001", "Runtime Overage Minutes", some consumptionRate, some om⟩]
  else [base]

/-- English month name, as `strftime("%B")` renders it. -/
def monthName : ℕ → String
  | 1 => "January"
  | 2 => "February"
  | 3 => "March"
  | 4 => "April"
  | 5 => "May"
  | 6 => "June"
  | 7 => "July"
  | 8 => "August"
  | 9 => "September"
  | 10 => "October"
  | 11 => "November"
  | 12 => "December"
  | _ => ""

/-- Two-digit zero padding, as `strftime("%m")` / `strftime("%d")`. -/
def fmt2 (n : ℕ) : String :=
  if n < 10 then "0" ++ toString n else toString n

/-- `strftime("%Y-%m-%d")`. -/
def formatYMD (d : DateTime) : String :=
  toString d.year ++ "-" ++ fmt2 d.month ++ "-" ++ fmt2 d.day

/-- `strftime("%B %d, %Y")`. -/
def formatLongDate (d : DateTime) : String :=
  monthName d.month ++ " " ++ fmt2 d.day ++ ", " ++ toString d.year

/-- `strftime("%B %Y")`. -/
def formatMonthYear (d : DateTime) : String :=
  monthName d.month ++ " " ++ toString d.year

/-- Python `datetime.replace(day=n)`: valid only for `1 <= n <= days in the
month`, otherwise it raises `ValueError` (in particular `day=0` always
raises). -/
def pyReplaceDay (d : DateTime) (newDay : ℤ) : Except String DateTime :=
  if 1 ≤ newDay ∧ newDay ≤ (daysInMonth d.year d.month : ℤ) then
    .ok { d with day := newDay.toNat }
  else .error "ValueError: day is out of range for month"

/-- The two description templates of `generate_invoice`, selected on the
`(service_type, client_type)` pair; any other combination leaves the
description empty. -/
def serviceDescription (serviceType clientType : Option String)
    (periodStart periodEnd : String) : String :=
  if serviceType = some "Managed Service" ∧ clientType = some "Client" then
    "Managed Automation Services for the period from " ++ periodStart ++ " to " ++
      periodEnd ++ "."
  else if serviceType = some "Managed Service" ∧ clientType = some "Client (Maintenance)" then
    "Managed Automation Maintenance for the period from " ++ periodStart ++ " to " ++
      periodEnd ++ "."
  else ""

/-- Python truthiness of the `billing_cc` local (`None` and the empty string
are falsy). -/
def pyTruthyStr : Option String → Bool
  | none => false
  | some s => !(s == "")

/-- The invoice request payload assembled by `generate_invoice` (the fields the
claims are about). -/
structure InvoicePayload where
  txnDate : String
  dueDate : String
  line : List SalesLineItem
  billEmailCc : Option String
deriving DecidableEq, Repr

/-- The computational core of `generate_invoice`.  `_bcfg` is the module-level
`BILLING_CONFIG` reference date that is in scope when the function runs; its
body derives every date from `datetime.now()` (`now`) and never reads the
billing configuration, which is exactly what the independence claim C9 states.
`TxnDate` is the current month with the day replaced by `day_to_bill`
(raising when that day is invalid), `DueDate` is the same date pushed one
month later for clients on the net-30 allow-list. -/
def generateInvoice (_bcfg : DateTime) (now : DateTime) (clientNumber : String)
    (net30Clients : List String) (monthlyRate : ℚ) (includedMinutes : ℤ)
    (consumptionRate : ℚ) (totalRuntimePrior : ℤ) (dayToBill : ℤ)
    (serviceType clientType : Option String) (billingCC : Option String) :
    Except String InvoicePayload := do
  let currentMonthAndYear ← pyReplaceDay now dayToBill
  let formattedDate := formatYMD currentMonthAndYear
  let dueDate :=
    if clientNumber ∈ net30Clients then formatYMD (addOneMonth currentMonthAndYear)
    else formattedDate
  let formattedDateLong := formatLongDate currentMonthAndYear
  let nextBillingDateLong := formatLongDate (subOneDay (addOneMonth currentMonthAndYear))
  let priorMonthAndYear := formatMonthYear (subOneMonth now)
  let overageDescription := "Runtime Overage for " ++ priorMonthAndYear
  let description :=
    serviceDescription serviceType clientType formattedDateLong nextBillingDateLong
  .ok
    { txnDate := formattedDate
      dueDate := dueDate
      line := invoiceLineItems monthlyRate includedMinutes consumptionRate
        totalRuntimePrior description overageDescription
      billEmailCc := if pyTruthyStr billingCC then billingCC else none }

/-- The skip test of the orchestrator loop: `continue` when the numeric client
id is outside `[LOWER_CLIENT_ID, UPPER_CLIENT_ID)` or when the client number is
the reserved Automata id 10000.  Client numbers are canonical decimal strings
in the source (`int(client_number)` for the range test, string equality with
"10000" for the reserved id), modelled here by their numeric value. -/
def skipClient (lower upper clientNumber : ℤ) : Bool :=
  !(decide (lower ≤ clientNumber ∧ clientNumber < upper)) || decide (clientNumber = 10000)

/-- The per-client loop of `process_all_clients`: clients failing the skip test
are passed, one after the other, to the per-client body (`step`, abstracting
the fetch/aggregate/ClickUp/invoice/SharePoint sequence, any part of which can
raise).  The loop body has no try/except, so the first exception propagates
out of the loop and aborts the batch; if the loop finishes, the function
returns `True`.  The result pairs the list of clients whose processing
completed with the batch outcome (`Except.error` models the escaped
exception). -/
def processAllClientsLoop (lower upper : ℤ) (step : ℤ → Except String Unit) :
    List ℤ → List ℤ × Except String Bool
  | [] => ([], Except.ok true)
  | c :: rest =>
    if skipClient lower upper c then processAllClientsLoop lower upper step rest
    else
      match step c with
      | Except.error e => ([], Except.error e)
      | Except.ok _ =>
        let r := processAllClientsLoop lower upper step rest
        (c :: r.1, r.2)

/-- Whether a per-client step completed without raising. -/
def stepOk : Except String Unit → Bool
  | Except.ok _ => true
  | Except.error _ => false

/-- The custom-field names whose presence can change the extracted contract
values (or raise while parsing); every other field name falls through the
dispatch unchanged. -/
def contractFieldNames : List String :=
  ["Robocorp Lifetime", "Rate", "Included Consumption", "Consumption Rate",
    "Day to Bill", "Service Type", "Type", "Billing CC"]

lemma daysInMonth_pos (y m : ℕ) : 1 ≤ daysInMonth y m := by
  unfold daysInMonth
  split_ifs <;> omega

lemma daysInMonth_bounds (y m : ℕ) : 28 ≤ daysInMonth y m ∧ daysInMonth y m ≤ 31 := by
  unfold daysInMonth
  split_ifs <;> omega

lemma min_one_daysInMonth (y m : ℕ) : min 1 (daysInMonth y m) = 1 :=
  Nat.min_eq_left (daysInMonth_pos y m)

lemma priorStart_closed (y m : ℕ) :
    priorPeriodStart (firstOfMonth y m) =
      firstOfMonth (if m = 1 then y - 1 else y) (if m = 1 then 12 else m - 1) := by
  simp [priorPeriodStart, subOneMonth, firstOfMonth, min_one_daysInMonth]

lemma priorEnd_closed (y m : ℕ) :
    priorPeriodEnd (firstOfMonth y m) =
      ⟨if m = 1 then y - 1 else y, if m = 1 then 12 else m - 1,
        daysInMonth (if m = 1 then y - 1 else y) (if m = 1 then 12 else m - 1),
        23, 59, 59⟩ := by
  simp [priorPeriodEnd, subOneDay, setEndOfDay, firstOfMonth]

lemma currentEnd_closed (y m : ℕ) (hm1 : 1 ≤ m) (hm2 : m ≤ 12) :
    currentPeriodEnd (firstOfMonth y m) = ⟨y, m, daysInMonth y m, 23, 59, 59⟩ := by
  by_cases hm : m = 12
  · subst hm
    simp [currentPeriodEnd, addOneMonth, subOneDay, setEndOfDay, firstOfMonth,
      min_one_daysInMonth, daysInMonth]
  · have h1 : ¬ (m + 1 = 1) := by omega
    simp only [currentPeriodEnd, addOneMonth, subOneDay, setEndOfDay, firstOfMonth, hm,
      if_false, min_one_daysInMonth, h1]
    simp [h1]

/-- C5: for every reference date that is the first day of a month, the billing
period resolver returns `currentStart = reference_date` (00:00:00),
`currentEnd = currentStart + 1 month - 1 day` at 23:59:59,
`priorStart = currentStart - 1 month`, `priorEnd = currentStart - 1 day` at
23:59:59; the period label is `priorStart` formatted `YYYY-M` with no zero
padding; and `priorStart ≤ priorEnd < currentStart ≤ currentEnd` with
`priorEnd = currentStart - 1 second`. -/
theorem billing_period_resolver_correct (y m : ℕ) (hy : 1 ≤ y) (hm1 : 1 ≤ m) (hm2 : m ≤ 12) :
    currentPeriodStart (firstOfMonth y m) = firstOfMonth y m ∧
    currentPeriodEnd (firstOfMonth y m) = ⟨y, m, daysInMonth y m, 23, 59, 59⟩ ∧
    priorPeriodStart (firstOfMonth y m) =
      firstOfMonth (if m = 1 then y - 1 else y) (if m = 1 then 12 else m - 1) ∧
    priorPeriodEnd (firstOfMonth y m) =
      ⟨if m = 1 then y - 1 else y, if m = 1 then 12 else m - 1,
        daysInMonth (if m = 1 then y - 1 else y) (if m = 1 then 12 else m - 1), 23, 59, 59⟩ ∧
    sharepointFileDate (firstOfMonth y m) =
      toString (if m = 1 then y - 1 else y) ++ "-" ++ toString (if m = 1 then 12 else m - 1) ∧
    DateTime.le (priorPeriodStart (firstOfMonth y m)) (priorPeriodEnd (firstOfMonth y m)) ∧
    DateTime.lt (priorPeriodEnd (firstOfMonth y m)) (currentPeriodStart (firstOfMonth y m)) ∧
    DateTime.le (currentPeriodStart (firstOfMonth y m)) (currentPeriodEnd (firstOfMonth y m)) ∧
    addOneSecond (priorPeriodEnd (firstOfMonth y m)) = currentPeriodStart (firstOfMonth y m) := by
  refine ⟨rfl, currentEnd_closed y m hm1 hm2, priorStart_closed y m, priorEnd_closed y m,
    ?_, ?_, ?_, ?_, ?_⟩
  · rw [sharepointFileDate, priorStart_closed y m]
    rfl
  · rw [priorStart_closed y m, priorEnd_closed y m]
    have hb := daysInMonth_bounds (if m = 1 then y - 1 else y) (if m = 1 then 12 else m - 1)
    by_cases hm : m = 1 <;>
      simp only [hm, if_true, if_false, hm1] at hb ⊢ <;>
      simp only [DateTime.le, DateTime.key, firstOfMonth] <;> omega
  · rw [priorEnd_closed y m]
    have hb := daysInMonth_bounds (if m = 1 then y - 1 else y) (if m = 1 then 12 else m - 1)
    by_cases hm : m = 1 <;>
      simp only [hm, if_true, if_false] at hb ⊢ <;>
      simp only [DateTime.lt, DateTime.key, currentPeriodStart, firstOfMonth] <;> omega
  · rw [currentEnd_closed y m hm1 hm2]
    have hb := daysInMonth_bounds y m
    simp only [DateTime.le, DateTime.key, currentPeriodStart, firstOfMonth]
    omega
  · rw [priorEnd_closed y m]
    by_cases hm : m = 1
    · have h12 : ¬ ((12 : ℕ) < 12) := by omega
      simp only [hm, if_true, currentPeriodStart, firstOfMonth, addOneSecond, lt_irrefl,
        if_false, h12]
      simp [DateTime.mk.injEq]
      omega
    · have hlt : m - 1 < 12 := by omega
      simp only [hm, if_false, currentPeriodStart, firstOfMonth, addOneSecond, lt_irrefl,
        hlt, if_true]
      simp [DateTime.mk.injEq, hlt]
      omega

/-- Witness for C5 at the spec scenario: reference date 2025-10-01 gives
`priorStart = 2025-09-01T00:00:00`, `priorEnd = 2025-09-30T23:59:59`,
`currentEnd = 2025-10-31T23:59:59` and label `"2025-9"`. -/
theorem billing_period_resolver_correct_witness :
    (1 ≤ 2025 ∧ 1 ≤ 10 ∧ 10 ≤ 12) ∧
    priorPeriodStart (firstOfMonth 2025 10) = firstOfMonth 2025 9 ∧
    priorPeriodEnd (firstOfMonth 2025 10) = ⟨2025, 9, 30, 23, 59, 59⟩ ∧
    currentPeriodEnd (firstOfMonth 2025 10) = ⟨2025, 10, 31, 23, 59, 59⟩ ∧
    sharepointFileDate (firstOfMonth 2025 10) = "2025-9" ∧
    addOneSecond (priorPeriodEnd (firstOfMonth 2025 10)) =
      currentPeriodStart (firstOfMonth 2025 10) := by
  have h := billing_period_resolver_correct 2025 10 (by decide) (by decide) (by decide)
  obtain ⟨-, h2, h3, h4, h5, -, -, -, h9⟩ := h
  refine ⟨⟨by decide, by decide, by decide⟩, ?_, ?_, ?_, ?_, h9⟩
  · simpa using h3
  · simpa [daysInMonth, isLeap] using h4
  · simpa [daysInMonth, isLeap] using h2
  · simpa using h5

lemma unattendedRunRuntime_foldl (l : List (Option ℕ)) :
    ∀ a : ℕ,
      l.foldl
        (fun acc s => match s with
          | some d => roundUpToMinute d + acc
          | none => acc) a =
      a + (l.map (fun s => match s with
        | some d => roundUpToMinute d
        | none => 0)).sum := by
  induction l with
  | nil => intro a; simp
  | cons s t ih =>
    intro a
    cases s
    · simp [List.foldl_cons, ih]
    · simp [List.foldl_cons, ih]
      omega

/-- C6: runtime rounding is strictly round-up.  The per-second examples of the
spec hold (`1 s -> 1 min`, `60 s -> 1 min`, `61 s -> 2 min`), the rounding
equals the mathematical ceiling of `duration / 60` for every non-negative
duration, and an unattended process run's runtime is the sum of its steps'
ceiled minutes with a null step duration contributing 0. -/
theorem runtime_rounding_is_ceiling :
    roundUpToMinute 1 = 1 ∧ roundUpToMinute 60 = 1 ∧ roundUpToMinute 61 = 2 ∧
    (∀ d : ℕ, ((roundUpToMinute d : ℤ) : ℤ) = ⌈((d : ℚ) / 60)⌉) ∧
    (∀ steps : List (Option ℕ),
      unattendedRunRuntime steps =
        (steps.map (fun s => match s with
          | some d => roundUpToMinute d
          | none => 0)).sum) := by
  refine ⟨rfl, rfl, rfl, ?_, ?_⟩
  · intro d
    have key : ∀ k : ℕ, d ≤ 60 * k → 60 * k < d + 60 → ⌈((d : ℚ) / 60)⌉ = (k : ℤ) := by
      intro k h1 h2
      have h1q : (d : ℚ) ≤ 60 * k := by exact_mod_cast h1
      have h2q : (60 : ℚ) * k < (d : ℚ) + 60 := by exact_mod_cast h2
      rw [Int.ceil_eq_iff]
      push_cast
      constructor
      · rw [lt_div_iff₀ (by norm_num : (0 : ℚ) < 60)]
        linarith
      · rw [div_le_iff₀ (by norm_num : (0 : ℚ) < 60)]
        linarith
    simp only [roundUpToMinute]
    exact (key ((d + 59) / 60) (by omega) (by omega)).symm
  · intro steps
    simpa using unattendedRunRuntime_foldl steps 0

/-- C7: a run record contributes to the aggregation exactly when its
`started_at` lies in its source's window: assistant records are kept iff
`priorStart <= started_at <= priorEnd`, unattended process-run records are kept
iff `priorStart <= started_at <= currentEnd`. -/
theorem run_window_filters (ref : DateTime) (aRuns : List AssistantRun)
    (uRuns : List UnattendedRun) (a : AssistantRun) (u : UnattendedRun) :
    (a ∈ filterAssistantRuns (priorPeriodStart ref) (priorPeriodEnd ref) aRuns ↔
      a ∈ aRuns ∧ DateTime.le (priorPeriodStart ref) a.started_at ∧
        DateTime.le a.started_at (priorPeriodEnd ref)) ∧
    (u ∈ filterUnattendedRuns ref uRuns ↔
      u ∈ uRuns ∧ DateTime.le (priorPeriodStart ref) u.started_at ∧
        DateTime.le u.started_at (currentPeriodEnd ref)) := by
  constructor <;>
    simp [filterAssistantRuns, filterUnattendedRuns, List.mem_filter,
      decide_eq_true_eq, and_assoc]

/-- Witness for C7: with reference date 2025-10-01, an assistant run started
2025-09-15 passes the assistant filter and an unattended run started
2025-10-05 passes the (wider) unattended filter. -/
theorem run_window_filters_witness :
    (⟨"A", ⟨2025, 9, 15, 0, 0, 0⟩, 60⟩ : AssistantRun) ∈
      filterAssistantRuns (priorPeriodStart (firstOfMonth 2025 10))
        (priorPeriodEnd (firstOfMonth 2025 10))
        [⟨"A", ⟨2025, 9, 15, 0, 0, 0⟩, 60⟩] ∧
    (⟨"U", ⟨2025, 10, 5, 0, 0, 0⟩, [some 60]⟩ : UnattendedRun) ∈
      filterUnattendedRuns (firstOfMonth 2025 10)
        [⟨"U", ⟨2025, 10, 5, 0, 0, 0⟩, [some 60]⟩] := by
  constructor
  · exact (run_window_filters (firstOfMonth 2025 10) [⟨"A", ⟨2025, 9, 15, 0, 0, 0⟩, 60⟩]
      [] ⟨"A", ⟨2025, 9, 15, 0, 0, 0⟩, 60⟩
      ⟨"U", ⟨2025, 10, 5, 0, 0, 0⟩, [some 60]⟩).1.mpr
      ⟨by simp, by decide, by decide⟩
  · exact (run_window_filters (firstOfMonth 2025 10) []
      [⟨"U", ⟨2025, 10, 5, 0, 0, 0⟩, [some 60]⟩]
      ⟨"A", ⟨2025, 9, 15, 0, 0, 0⟩, 60⟩
      ⟨"U", ⟨2025, 10, 5, 0, 0, 0⟩, [some 60]⟩).2.mpr
      ⟨by simp, by decide, by decide⟩

/-- C8: a client is skipped exactly when its numeric id is below the inclusive
lower bound, at or above the exclusive upper bound, or equal to the reserved
id 10000; in particular id 10000 is skipped for every range configuration. -/
theorem client_skip_rule (lower upper n : ℤ) :
    (skipClient lower upper n = true ↔ n < lower ∨ upper ≤ n ∨ n = 10000) ∧
    skipClient lower upper 10000 = true := by
  constructor
  · simp only [skipClient, Bool.or_eq_true, Bool.not_eq_true',
      decide_eq_false_iff_not, decide_eq_true_eq]
    omega
  · simp [skipClient]

/-- Witness for C8: with the default range `[10000, 20030)` the reserved id
10000 is skipped, and so is the out-of-range id 9999. -/
theorem client_skip_rule_witness :
    skipClient 10000 20030 10000 = true ∧ skipClient 10000 20030 9999 = true :=
  ⟨(client_skip_rule 10000 20030 10000).2,
    (client_skip_rule 10000 20030 9999).1.mpr (Or.inl (by decide))⟩

/-- C2: the invoice line list contains an overage line iff
`total_runtime_minutes > included_minutes`; when present its quantity is
`total - included`, its unit price is the consumption rate, and its amount is
`overage_minutes * consumption_rate`; exactly one base-service line with
amount = monthly rate is always present (and it is the first line).  The
spec scenario `included=1000, total=1250, rate=0.5` yields quantity 250,
unit price 0.5, amount 125. -/
theorem overage_line_item_rule (mr : ℚ) (inc : ℤ) (rate : ℚ) (tot : ℤ) (d od : String) :
    (invoiceLineItems mr inc rate tot d od)[0]? =
      some ⟨"SalesItemLineDetail", mr, d, "11", "Managed Automation Services",
        none, none⟩ ∧
    ((invoiceLineItems mr inc rate tot d od).filter
        (fun li => li.itemRefValue == "11")).length = 1 ∧
    ((invoiceLineItems mr inc rate tot d od).length = 2 ↔ inc < tot) ∧
    (inc < tot →
      (invoiceLineItems mr inc rate tot d od)[1]? =
        some ⟨"SalesItemLineDetail", ((tot - inc : ℤ) : ℚ) * rate, od, "1010000001",
          "Runtime Overage Minutes", some rate, some (tot - inc)⟩) ∧
    (¬ inc < tot →
      invoiceLineItems mr inc rate tot d od =
        [⟨"SalesItemLineDetail", mr, d, "11", "Managed Automation Services",
          none, none⟩]) ∧
    invoiceLineItems mr 1000 (0.5 : ℚ) 1250 d od =
      [⟨"SalesItemLineDetail", mr, d, "11", "Managed Automation Services", none, none⟩,
        ⟨"SalesItemLineDetail", 125, od, "1010000001", "Runtime Overage Minutes",
          some (0.5 : ℚ), some 250⟩] := by
  have hbeq : (("1010000001" : String) == "11") = false := by decide
  have hbeq2 : (("11" : String) == "11") = true := by decide
  by_cases h : inc < tot
  · have hom : overageMinutes tot inc = tot - inc := by
      simp [overageMinutes, h]
    have hpos : 0 < overageMinutes tot inc := by
      rw [hom]; omega
    refine ⟨?_, ?_, ?_, ?_, ?_, ?_⟩
    · simp [invoiceLineItems, hpos]
    · simp [invoiceLineItems, hpos, List.filter, hbeq, hbeq2]
    · simp [invoiceLineItems, hpos, h]
    · intro _
      simp [invoiceLineItems, hpos, hom, h]
    · intro hc
      exact absurd h hc
    · norm_num [invoiceLineItems, overageMinutes]
  · have hom : overageMinutes tot inc = 0 := by
      simp [overageMinutes, h]
    have hpos : ¬ 0 < overageMinutes tot inc := by
      rw [hom]; omega
    refine ⟨?_, ?_, ?_, ?_, ?_, ?_⟩
    · simp [invoiceLineItems, hpos]
    · simp [invoiceLineItems, hpos, List.filter, hbeq2]
    · simp [invoiceLineItems, hpos, h]
    · intro hc
      exact absurd hc h
    · intro _
      simp [invoiceLineItems, hpos]
    · norm_num [invoiceLineItems, overageMinutes]

/-- Witness for C2 at the spec scenario: with included minutes 1000, total
runtime 1250 and consumption rate 0.5 the second line is the overage line with
quantity 250, unit price 0.5 and amount 125. -/
theorem overage_line_item_rule_witness :
    (1000 : ℤ) < 1250 ∧
    (invoiceLineItems 100 1000 (0.5 : ℚ) 1250 "d" "od")[1]? =
      some ⟨"SalesItemLineDetail", ((1250 - 1000 : ℤ) : ℚ) * (0.5 : ℚ), "od", "1010000001",
        "Runtime Overage Minutes", some (0.5 : ℚ), some (1250 - 1000 : ℤ)⟩ :=
  ⟨by decide, (overage_line_item_rule 100 1000 (0.5 : ℚ) 1250 "d" "od").2.2.2.1 (by decide)⟩

lemma sum_map_filter_eq {α : Type} (p : α → Bool) (f : α → ℕ) (l : List α) :
    ((l.filter p).map f).sum = (l.map (fun x => if p x then f x else 0)).sum := by
  induction l with
  | nil => rfl
  | cons a t ih =>
    cases hp : p a <;> simp [List.filter_cons, hp, ih]

/-- C1 (amended): the total runtime used to build the invoice is the direct sum
of the rounded-up minutes of the assistant runs inside `[priorStart, priorEnd]`
plus the spreadsheet-derived unattended total of the client's organization; the
pivot's rightmost-column Total is computed only for the runtime report and does
not feed the invoice. -/
theorem invoice_total_is_direct_sum (ref : DateTime) (assistantRuns : List AssistantRun)
    (sheetRows : List SpreadsheetRow) (orgId : String) :
    totalRuntimePriorMonth ref assistantRuns sheetRows orgId =
      (assistantRuns.map (fun r =>
        if decide (DateTime.le (priorPeriodStart ref) r.started_at) &&
            decide (DateTime.le r.started_at (priorPeriodEnd ref)) then
          roundUpToMinute r.duration
        else 0)).sum +
      (sheetRows.map (fun s => if s.organizationId == orgId then s.minutes else 0)).sum := by
  unfold totalRuntimePriorMonth totalAssistantMinutes filterAssistantRuns
    spreadsheetUnattendedTotal
  rw [sum_map_filter_eq, sum_map_filter_eq]

/-- Counterexample to C1 as stated: with reference date 2025-10-01, one
assistant run of 120 s on 2025-09-15 (2 minutes), a spreadsheet unattended
total of 5 minutes, and one live unattended run of one 60 s step on 2025-10-05
(1 minute), the invoice total is 2 + 5 = 7 while the Total-row value in the
rightmost (2025-10) month column of the report pivot is 1. -/
theorem invoice_total_not_pivot_counterexample :
    totalRuntimePriorMonth (firstOfMonth 2025 10)
        [⟨"A", ⟨2025, 9, 15, 12, 0, 0⟩, 120⟩] [⟨"org1", "Org", "P", 5⟩] "org1" ≠
      pivotRightmostTotal
        (reportRows (firstOfMonth 2025 10) [⟨"A", ⟨2025, 9, 15, 12, 0, 0⟩, 120⟩]
          [⟨"U", ⟨2025, 10, 5, 0, 0, 0⟩, [some 60]⟩]) := by
  decide

/-- C3 (amended): the orchestrator loop has no per-client exception handler:
the first in-range client whose step raises aborts the whole batch with that
exception and later clients are not processed; the loop returns `True` iff
every in-range client's step succeeded, and a completed loop never reports
`False`. -/
theorem batch_success_iff_no_step_error (lower upper : ℤ) (step : ℤ → Except String Unit)
    (clients : List ℤ) :
    ((processAllClientsLoop lower upper step clients).2 = Except.ok true ↔
      ∀ c ∈ clients, skipClient lower upper c = false → stepOk (step c) = true) ∧
    ∀ b : Bool, (processAllClientsLoop lower upper step clients).2 = Except.ok b →
      b = true := by
  induction clients with
  | nil =>
    constructor
    · simp [processAllClientsLoop]
    · intro b hb
      simp [processAllClientsLoop] at hb
      exact hb
  | cons c rest ih =>
    by_cases hskip : skipClient lower upper c = true
    · constructor
      · rw [processAllClientsLoop]
        simp only [hskip, if_true, ih.1]
        constructor
        · intro h
          intro x hx hxs
          rcases List.mem_cons.mp hx with rfl | hx2
          · rw [hskip] at hxs
            exact absurd hxs (by simp)
          · exact h x hx2 hxs
        · intro h x hx hxs
          exact h x (List.mem_cons_of_mem c hx) hxs
      · intro b hb
        rw [processAllClientsLoop] at hb
        simp only [hskip, if_true] at hb
        exact ih.2 b hb
    · have hskip' : skipClient lower upper c = false := by
        cases h : skipClient lower upper c
        · rfl
        · exact absurd h hskip
      cases hstep : step c with
      | error e =>
        constructor
        · rw [processAllClientsLoop]
          simp only [hskip', if_false, hstep, Bool.false_eq_true]
          constructor
          · intro h
            exact absurd h (by simp)
          · intro h
            have := h c (by simp) hskip'
            rw [hstep] at this
            exact absurd this (by simp [stepOk])
        · intro b hb
          rw [processAllClientsLoop] at hb
          simp only [hskip', if_false, hstep] at hb
          exact absurd hb (by simp)
      | ok u =>
        cases u
        constructor
        · rw [processAllClientsLoop]
          simp only [hskip', if_false, hstep, Bool.false_eq_true]
          rw [ih.1]
          constructor
          · intro h x hx hxs
            rcases List.mem_cons.mp hx with rfl | hx2
            · rw [hstep]
              rfl
            · exact h x hx2 hxs
          · intro h x hx hxs
            exact h x (List.mem_cons_of_mem c hx) hxs
        · intro b hb
          rw [processAllClientsLoop] at hb
          simp only [hskip', if_false, hstep, Bool.false_eq_true] at hb
          exact ih.2 b hb

/-- Witness for C3 (amended): a single in-range client whose step succeeds
makes the batch return `True`. -/
theorem batch_success_iff_no_step_error_witness :
    (processAllClientsLoop 10000 20030 (fun _ => Except.ok ()) [10001]).2 =
      Except.ok true :=
  (batch_success_iff_no_step_error 10000 20030 (fun _ => Except.ok ()) [10001]).1.mpr
    (by intro c hc hs; rfl)

/-- Counterexample to C3 as stated: with three in-range clients where the
second client's step raises, the batch neither returns `success = false` nor
processes the third client — the exception escapes the loop after only the
first client completed. -/
theorem batch_abort_counterexample :
    (processAllClientsLoop 10000 20030
        (fun c => if c = 10002 then Except.error "contract lookup failed" else Except.ok ())
        [10001, 10002, 10003]).2 ≠ Except.ok false ∧
    (10003 : ℤ) ∉ (processAllClientsLoop 10000 20030
        (fun c => if c = 10002 then Except.error "contract lookup failed" else Except.ok ())
        [10001, 10002, 10003]).1 := by
  have hrun : processAllClientsLoop 10000 20030
      (fun c => if c = 10002 then Except.error "contract lookup failed" else Except.ok ())
      [10001, 10002, 10003] = ([10001], Except.error "contract lookup failed") := by
    rfl
  constructor
  · rw [hrun]
    exact fun h => Except.noConfusion h
  · rw [hrun]
    decide

lemma applyField_unlisted (c : ContractInfo) (f : CustomField)
    (h : f.name ∉ contractFieldNames) : applyField c f = Except.ok c := by
  simp only [contractFieldNames, List.mem_cons, List.mem_singleton, not_or] at h
  obtain ⟨h1, h2, h3, h4, h5, h6, h7, h8⟩ := h
  by_cases hrpm : f.name = "Robocorp Prior Month"
  · simp [applyField, hrpm]
  · simp [applyField, hrpm, h1, h2, h3, h4, h5, h6, h7, h8]

lemma foldlM_applyField_unlisted (fs : List CustomField)
    (h : ∀ f ∈ fs, f.name ∉ contractFieldNames) :
    ∀ c : ContractInfo, fs.foldlM applyField c = Except.ok c := by
  induction fs with
  | nil => intro c; rfl
  | cons f t ih =>
    intro c
    have happ : applyField c f = applyField c f := rfl
    rw [List.foldlM_cons, applyField_unlisted c f (h f (by simp))]
    exact ih (fun g hg => h g (List.mem_cons_of_mem f hg)) c

/-- C4 (amended): when no organization task matches the client's `Account #`,
the resolver returns — without raising — the initial contract values
(`monthly_rate = 0`, `included_minutes = 0`, `consumption_rate = 0.50`,
`day_to_bill = 0`); when a task matches but carries none of the
contract-bearing custom fields, the same defaults come back with the task id
attached.  (A present-but-unparseable numeric field value instead raises, and
the batch has no per-client handler — see the counterexample.) -/
theorem contract_resolver_defaults (tasks : List OrgTask) (client : String) :
    (findOrganization tasks client = none →
      resolveContract tasks client =
        Except.ok ⟨none, 0, 0, 1 / 2, 0, none, none, none⟩) ∧
    (∀ org : OrgTask, findOrganization tasks client = some org →
      (∀ f ∈ org.customFields, f.name ∉ contractFieldNames) →
      resolveContract tasks client =
        Except.ok ⟨some org.id, 0, 0, 1 / 2, 0, none, none, none⟩) := by
  constructor
  · intro h
    simp [resolveContract, h, defaultContract]
  · intro org horg hf
    simp only [resolveContract, horg]
    exact foldlM_applyField_unlisted org.customFields hf
      { defaultContract with organizationTaskId := some org.id }

/-- Witness for C4 (amended): an empty task list matches nothing, so the
resolver returns the documented defaults; a task whose only custom field is
the matching `Account #` does the same with the task id attached. -/
theorem contract_resolver_defaults_witness :
    resolveContract [] "10001" =
      Except.ok ⟨none, 0, 0, 1 / 2, 0, none, none, none⟩ ∧
    resolveContract
        [⟨"task1", "Acme", [⟨"Account #", some (FieldValue.str "10001"), none⟩]⟩]
        "10001" =
      Except.ok ⟨some "task1", 0, 0, 1 / 2, 0, none, none, none⟩ :=
  ⟨(contract_resolver_defaults [] "10001").1 rfl,
    (contract_resolver_defaults
        [⟨"task1", "Acme", [⟨"Account #", some (FieldValue.str "10001"), none⟩]⟩]
        "10001").2
      ⟨"task1", "Acme", [⟨"Account #", some (FieldValue.str "10001"), none⟩]⟩
      (by rfl) (by decide)⟩

/-- Counterexample to C4 as stated: a matching organization task whose `Rate`
custom field holds the unparseable value `"abc"` makes the resolver raise a
`ValueError` (Python `int("abc")`) instead of returning defaults, and nothing
catches it on the per-client path. -/
theorem contract_resolver_raises_counterexample :
    resolveContract
        [⟨"task1", "Acme",
          [⟨"Account #", some (FieldValue.str "10001"), none⟩,
            ⟨"Rate", some (FieldValue.str "abc"), none⟩]⟩]
        "10001" =
      Except.error "ValueError: invalid literal for int" := by
  rfl

/-- C9: the invoice's `TxnDate` and `DueDate` (indeed the whole payload) are
derived from the current wall-clock date, `day_to_bill`, the client number and
the net-30 allow-list only; two runs differing solely in the configured
billing reference date (`BILLING_REFERENCE_DATE` / `BillingPeriodConfig`)
produce identical invoice dates. -/
theorem invoice_dates_independent_of_billing_config (bcfg1 bcfg2 now : DateTime)
    (client : String) (net30 : List String) (mr : ℚ) (inc : ℤ) (rate : ℚ)
    (tot : ℤ) (day : ℤ) (st ct : Option String) (cc : Option String) :
    generateInvoice bcfg1 now client net30 mr inc rate tot day st ct cc =
      generateInvoice bcfg2 now client net30 mr inc rate tot day st ct cc ∧
    (generateInvoice bcfg1 now client net30 mr inc rate tot day st ct cc).map
        (fun inv => (inv.txnDate, inv.dueDate)) =
      (generateInvoice bcfg2 now client net30 mr inc rate tot day st ct cc).map
        (fun inv => (inv.txnDate, inv.dueDate)) :=
  ⟨rfl, rfl⟩

/-- C10: invoice generation is partial in the billing day — it succeeds iff
`1 ≤ day_to_bill ≤ days in the current month`; the contract resolver leaves
`day_to_bill = 0` when no organization task matches (its initial value, also
kept when the `Day to Bill` field is absent), and `generate_invoice` with
`day_to_bill = 0` raises `ValueError` from `datetime.replace(day=0)` instead
of producing an invoice. -/
theorem invoice_day_to_bill_precondition (bcfg now : DateTime) (client : String)
    (net30 : List String) (mr : ℚ) (inc : ℤ) (rate : ℚ) (tot : ℤ) (day : ℤ)
    (st ct : Option String) (cc : Option String) (tasks : List OrgTask)
    (client2 : String) :
    ((∃ inv, generateInvoice bcfg now client net30 mr inc rate tot day st ct cc =
        Except.ok inv) ↔
      1 ≤ day ∧ day ≤ (daysInMonth now.year now.month : ℤ)) ∧
    (findOrganization tasks client2 = none →
      ∃ c, resolveContract tasks client2 = Except.ok c ∧ c.dayToBill = 0) ∧
    generateInvoice bcfg now client net30 mr inc rate tot 0 st ct cc =
      Except.error "ValueError: day is out of range for month" := by
  have hneg : ¬ ((1 : ℤ) ≤ 0 ∧ (0 : ℤ) ≤ (daysInMonth now.year now.month : ℤ)) := by
    intro hcon
    omega
  refine ⟨?_, ?_, ?_⟩
  · constructor
    · rintro ⟨inv, hinv⟩
      by_cases h : 1 ≤ day ∧ day ≤ (daysInMonth now.year now.month : ℤ)
      · exact h
      · rw [generateInvoice] at hinv
        rw [pyReplaceDay, if_neg h] at hinv
        exact absurd hinv (fun hcontra => Except.noConfusion hcontra)
    · intro h
      have hrep : pyReplaceDay now day = Except.ok { now with day := day.toNat } := by
        rw [pyReplaceDay, if_pos h]
      exact ⟨_, by rw [generateInvoice, hrep]; rfl⟩
  · intro h
    exact ⟨defaultContract, by simp [resolveContract, h], rfl⟩
  · have hrep : pyReplaceDay now 0 =
        Except.error "ValueError: day is out of range for month" := by
      rw [pyReplaceDay, if_neg hneg]
    rw [generateInvoice, hrep]
    rfl

/-- Witness for C10: with the wall clock at 2025-10-15, billing day 15 yields
an invoice while billing day 0 — the resolver's default for an unmatched
client — raises. -/
theorem invoice_day_to_bill_precondition_witness :
    (∃ inv, generateInvoice (firstOfMonth 2025 10) ⟨2025, 10, 15, 0, 0, 0⟩ "10001" []
        100 0 (1 / 2) 0 15 none none none = Except.ok inv) ∧
    generateInvoice (firstOfMonth 2025 10) ⟨2025, 10, 15, 0, 0, 0⟩ "10001" []
      100 0 (1 / 2) 0 0 none none none =
        Except.error "ValueError: day is out of range for month" :=
  ⟨(invoice_day_to_bill_precondition (firstOfMonth 2025 10) ⟨2025, 10, 15, 0, 0, 0⟩
      "10001" [] 100 0 (1 / 2) 0 15 none none none [] "x").1.mpr
      ⟨by decide, by decide⟩,
    (invoice_day_to_bill_precondition (firstOfMonth 2025 10) ⟨2025, 10, 15, 0, 0, 0⟩
      "10001" [] 100 0 (1 / 2) 0 15 none none none [] "x").2.2⟩

/-- Witness for C1 (amended) at the counterexample inputs: the invoice total
equals the direct sum 2 + 5 = 7. -/
theorem invoice_total_is_direct_sum_witness :
    totalRuntimePriorMonth (firstOfMonth 2025 10)
        [⟨"A", ⟨2025, 9, 15, 12, 0, 0⟩, 120⟩] [⟨"org1", "Org", "P", 5⟩] "org1" =
      ([⟨"A", ⟨2025, 9, 15, 12, 0, 0⟩, 120⟩].map (fun r : AssistantRun =>
        if decide (DateTime.le (priorPeriodStart (firstOfMonth 2025 10)) r.started_at) &&
            decide (DateTime.le r.started_at (priorPeriodEnd (firstOfMonth 2025 10))) then
          roundUpToMinute r.duration
        else 0)).sum +
      ([⟨"org1", "Org", "P", 5⟩].map (fun s : SpreadsheetRow =>
        if s.organizationId == "org1" then s.minutes else 0)).sum :=
  invoice_total_is_direct_sum (firstOfMonth 2025 10)
    [⟨"A", ⟨2025, 9, 15, 12, 0, 0⟩, 120⟩] [⟨"org1", "Org", "P", 5⟩] "org1"

/-- Witness for C6 at the spec example: 61 seconds round up to 2 minutes,
matching the mathematical ceiling. -/
theorem runtime_rounding_is_ceiling_witness :
    ((roundUpToMinute 61 : ℤ) : ℤ) = ⌈((61 : ℚ) / 60)⌉ :=
  runtime_rounding_is_ceiling.2.2.2.1 61

/-- Witness for C9 at two distinct billing reference dates: the generated
payloads coincide. -/
theorem invoice_dates_independent_witness :
    generateInvoice (firstOfMonth 2025 9) ⟨2025, 10, 15, 0, 0, 0⟩ "10001" []
        100 0 (1 / 2) 0 15 none none none =
      generateInvoice (firstOfMonth 2025 10) ⟨2025, 10, 15, 0, 0, 0⟩ "10001" []
        100 0 (1 / 2) 0 15 none none none :=
  (invoice_dates_independent_of_billing_config (firstOfMonth 2025 9) (firstOfMonth 2025 10)
    ⟨2025, 10, 15, 0, 0, 0⟩ "10001" [] 100 0 (1 / 2) 0 15 none none none).1
